import Mathlib

/-
  Verification of the risk-model engine (src/risk_model/engine.py) against its
  natural-language specification.

  Modelling conventions (shallow embedding):
  * Python floats are modelled as exact rationals (ℚ).  The quantities the
    claims are about (bucket scores, allocations, prices, P&L) are all finite
    decimal arithmetic, so ℚ is faithful up to floating rounding, which the
    claims themselves set aside.
  * A Python value that can be None / NaN ("not available") is an Option ℚ;
    none models both None and NaN, which the source treats uniformly as
    "absent" via `is None` checks and `x == x` NaN checks.
  * Network requests are modelled by an oracle function passed in explicitly:
    it maps a request key to (some body) for an HTTP 200 response and to none
    for any non-success response.  A request counter records how many network
    calls a fetch performed (0 or 1), so memoization claims are statable.
  * The square root used by statistics.stdev lives in ℝ (Real.sqrt); the
    volatility functions therefore return Option ℝ and are the only
    noncomputable definitions in the file.
-/

namespace RiskModel

/-! ### Risk scorer: score_other (engine.py lines 153-157) -/

/-- Python coercion `x or 0` on an optional float: None becomes 0, and a zero
value (falsy in Python) also becomes the literal 0; any other number is kept. -/
def pyOr0 (x : Option ℚ) : ℚ :=
  match x with
  | none => 0
  | some v => if v = 0 then 0 else v

/-- Python round(x, 2).  The engine only rounds linear combinations of the
bucket values 1, 3, 5 (and weights that are multiples of 1/10), which are
exact multiples of 1/100, so no tie-breaking subtlety arises and round-half-up
agrees with Python's banker rounding on every value the engine produces. -/
def round2 (x : ℚ) : ℚ := (round (x * 100) : ℚ) / 100

/-- Translation of score_other (engine.py line 153-157):
liq = 3 if volume_24h is None else (1 if volume_24h>500e6 else 3 if volume_24h>50e6 else 5);
prot likewise from tvl with thresholds 1e9 / 100e6;
reg = 3 if is_stable else (2 if (volume_24h or 0)>500e6 else 4). -/
def score_other (volume_24h : Option ℚ) (tvl : Option ℚ) (is_stable : Bool) :
    ℚ × ℚ × ℚ :=
  let liq : ℚ :=
    match volume_24h with
    | none => 3
    | some v => if v > 500000000 then 1 else if v > 50000000 then 3 else 5
  let prot : ℚ :=
    match tvl with
    | none => 3
    | some t => if t > 1000000000 then 1 else if t > 100000000 then 3 else 5
  let reg : ℚ :=
    if is_stable then 3 else if pyOr0 volume_24h > 500000000 then 2 else 4
  (liq, prot, reg)

/-! ### Risk scorer: score_market (engine.py lines 134-151) -/

/-- Volatility bucket of score_market: None -> 3, v < 0.5 -> 1, v < 1.0 -> 3,
else 5 (engine.py lines 137-140). -/
def volBucket (vol : Option ℚ) : ℚ :=
  match vol with
  | none => 3
  | some v => if v < 1/2 then 1 else if v < 1 then 3 else 5

/-- Market-cap bucket of score_market: None -> 3, m > 10e9 -> 1, m > 1e9 -> 3,
else 5 (engine.py lines 142-145). -/
def mcapBucket (mcap : Option ℚ) : ℚ :=
  match mcap with
  | none => 3
  | some m => if m > 10000000000 then 1 else if m > 1000000000 then 3 else 5

/-- Correlation bucket of score_market (engine.py lines 147-150):
avg_corr = np.mean([abs(corr_btc or 0), abs(corr_eth or 0)]); buckets at
avg < 0.4 -> 1, avg < 0.7 -> 3, else 5. -/
def corrBucket (corr_btc corr_eth : Option ℚ) : ℚ :=
  let avg := (|pyOr0 corr_btc| + |pyOr0 corr_eth|) / 2
  if avg < 2/5 then 1 else if avg < 7/10 then 3 else 5

/-- Translation of score_market (engine.py lines 134-151): stablecoins
short-circuit to 1.5; otherwise round(vol_s*0.5 + mcap_s*0.3 + corr_s*0.2, 2). -/
def score_market (mcap vol corr_btc corr_eth : Option ℚ) (is_stable : Bool) : ℚ :=
  if is_stable then 3/2
  else round2 (volBucket vol * (1/2) + mcapBucket mcap * (3/10) +
    corrBucket corr_btc corr_eth * (1/5))

theorem pyOr0_eq_getD (x : Option ℚ) : pyOr0 x = x.getD 0 := by
  cases x with
  | none => rfl
  | some v =>
    by_cases h : v = 0 <;> simp [pyOr0, h]

/-- Claim C1: the regulatory sub-score of score_other follows the exact
three-way rule: is_stable -> 3; otherwise volume_24h (absent treated as 0)
greater than 500e6 -> 2; otherwise 4. -/
theorem score_other_regulatory_three_way (volume_24h tvl : Option ℚ)
    (is_stable : Bool) :
    (score_other volume_24h tvl is_stable).2.2 =
      if is_stable then 3
      else if 500000000 < volume_24h.getD 0 then 2 else 4 := by
  simp only [score_other, pyOr0_eq_getD]

/-- Claim C9: for non-stable assets, score_market treats an absent (or zero)
correlation to BTC or to ETH as the value 0 rather than as the neutral bucket 3
used for absent volatility and absent market cap; with both correlations absent
the correlation bucket is the lowest-risk bucket 1, and the score is total (no
error path). -/
theorem score_market_corr_absent_as_zero (mcap vol corr_btc corr_eth : Option ℚ) :
    score_market mcap vol corr_btc corr_eth false =
      score_market mcap vol (some (corr_btc.getD 0)) (some (corr_eth.getD 0)) false ∧
    corrBucket none none = 1 ∧
    volBucket none = 3 ∧
    mcapBucket none = 3 ∧
    score_market mcap vol none none false =
      round2 (volBucket vol * (1/2) + mcapBucket mcap * (3/10) + 1 * (1/5)) := by
  refine ⟨?_, ?_, rfl, rfl, ?_⟩
  · simp only [score_market, corrBucket, pyOr0_eq_getD, Option.getD_some]
  · norm_num [corrBucket, pyOr0]
  · have h1 : corrBucket none none = 1 := by norm_num [corrBucket, pyOr0]
    simp [score_market, h1]

/-! ### Statistics calculator: calc_vol (engine.py lines 120-125) -/

/-- Daily simple returns, the comprehension
[(prices[i]-prices[i-1])/prices[i-1] for i in range(1,len(prices))]
(engine.py line 123). -/
def rets (prices : List ℚ) : List ℚ :=
  (prices.zip prices.tail).map (fun pq => (pq.2 - pq.1) / pq.1)

/-- Last w elements of a list: xs.drop (xs.length - w).  For w = 0 this is the
empty list; for w at least the length it is the whole list. -/
def lastN (w : ℕ) (xs : List ℚ) : List ℚ := xs.drop (xs.length - w)

/-- Python slice xs[-w:] for a natural w: for w = 0 the index -0 is 0, so the
slice is the WHOLE list, not the last zero elements; for w > 0 it is the last
min(w, len) elements. -/
def pySliceLast (w : ℕ) (xs : List ℚ) : List ℚ :=
  if w = 0 then xs else lastN w xs

/-- Sample standard deviation as computed by Python statistics.stdev: mean and
squared deviations in exact rational arithmetic (statistics.stdev converts its
input to Fraction internally), then a real square root of the variance with
denominator n - 1. -/
noncomputable def stdev (xs : List ℚ) : ℝ :=
  let m : ℚ := xs.sum / xs.length
  Real.sqrt ((((xs.map (fun x => (x - m) ^ 2)).sum : ℚ) : ℝ) / ((xs.length : ℝ) - 1))

/-- Translation of calc_vol (engine.py lines 120-125):
if not prices or len(prices) < 2: None; w = min(window, len(prices)-1);
rets as above; if len(rets[-w:]) < 2: None; else stdev(rets[-w:]) * sqrt(365).
The Python slice rets[-w:] is pySliceLast. -/
noncomputable def calc_vol (prices : List ℚ) (window : ℕ) : Option ℝ :=
  if prices.length < 2 then none
  else
    let w := min window (prices.length - 1)
    let slice := pySliceLast w (rets prices)
    if slice.length < 2 then none
    else some (stdev slice * Real.sqrt 365)

/-- Modelled from the spec wording of section 4.2: take the LAST
min(window, len(prices)-1) returns (for window = 0 that is zero returns);
absent when fewer than 2 prices or fewer than 2 returns remain; otherwise
sample standard deviation of the slice times sqrt(365). -/
noncomputable def calc_vol_spec (prices : List ℚ) (window : ℕ) : Option ℝ :=
  if prices.length < 2 then none
  else
    let w := min window (prices.length - 1)
    let slice := lastN w (rets prices)
    if slice.length < 2 then none
    else some (stdev slice * Real.sqrt 365)

theorem rets_replicate (n : ℕ) (c : ℚ) :
    rets (List.replicate n c) = List.replicate (n - 1) 0 := by
  cases n with
  | zero => rfl
  | succ m =>
    unfold rets
    rw [show (List.replicate (m + 1) c).tail = List.replicate m c by
      simp [List.replicate_succ]]
    rw [List.zip_replicate]
    simp

theorem stdev_replicate_zero (m : ℕ) : stdev (List.replicate m 0) = 0 := by
  simp [stdev]

/-- Claim C4 counterexample: at window = 0 the code and the spec wording
disagree.  For prices [1,2,1,2] the spec says: take the last 0 returns, fewer
than 2 remain, so absent; the code computes rets[-0:] which is the WHOLE
3-element return list and yields a number. -/
theorem calc_vol_window_zero_diverges :
    calc_vol [1, 2, 1, 2] 0 ≠ calc_vol_spec [1, 2, 1, 2] 0 := by
  have hspec : calc_vol_spec [1, 2, 1, 2] 0 = none := by
    simp [calc_vol_spec, lastN, rets]
  have hcode : ∃ x, calc_vol [1, 2, 1, 2] 0 = some x := by
    refine ⟨stdev (pySliceLast 0 (rets [1, 2, 1, 2])) * Real.sqrt 365, ?_⟩
    simp [calc_vol, pySliceLast, rets]
  obtain ⟨x, hx⟩ := hcode
  rw [hx, hspec]
  simp

/-- Claim C4, amended: for every window that is at least 1 (the Python slice
quirk at window = 0 aside), calc_vol returns absent when fewer than 2 prices
are given, or when fewer than 2 returns remain after taking the last
min(window, len(prices)-1) daily simple returns, and otherwise returns the
sample standard deviation of that slice times sqrt(365) - that is, it agrees
with the definition transcribed from the spec wording. -/
theorem calc_vol_matches_spec_pos_window (prices : List ℚ) (window : ℕ)
    (hw : 1 ≤ window) :
    calc_vol prices window = calc_vol_spec prices window := by
  unfold calc_vol calc_vol_spec
  by_cases hlen : prices.length < 2
  · simp [hlen]
  · have h1 : 1 ≤ prices.length - 1 := by omega
    have hmin : min window (prices.length - 1) ≠ 0 := by
      have := Nat.le_min.mpr ⟨hw, h1⟩
      omega
    simp only [hlen, if_false]
    rw [pySliceLast, if_neg hmin]

/-- Witness for calc_vol_matches_spec_pos_window at prices [1,2], window 30. -/
theorem calc_vol_matches_spec_pos_window_witness :
    1 ≤ 30 ∧ calc_vol [1, 2] 30 = calc_vol_spec [1, 2] 30 :=
  ⟨by norm_num, calc_vol_matches_spec_pos_window [1, 2] 30 (by norm_num)⟩

/-- Claim C3 counterexample: the constant price series [1, 1] (no change across
all samples) makes calc_vol return absent at the default window 30, not 0.0:
only one return exists, and stdev needs at least two. -/
theorem constant_two_sample_vol_absent :
    calc_vol [1, 1] 30 = none := by
  simp [calc_vol, pySliceLast, lastN, rets]

/-- Claim C3, amended: for every constant positive price series with at least 3
samples (so that at least 2 returns remain) and any window of at least 2 —
the default window 30 included — calc_vol returns 0, not absent. -/
theorem constant_series_vol_zero (c : ℚ) (n window : ℕ)
    (hc : 0 < c) (hn : 3 ≤ n) (hw : 2 ≤ window) :
    calc_vol (List.replicate n c) window = some 0 := by
  have hlen : (List.replicate n c).length = n := List.length_replicate n c
  have hnot : ¬ (List.replicate n c).length < 2 := by omega
  have hw0 : min window ((List.replicate n c).length - 1) ≠ 0 := by
    rw [hlen]; omega
  have hwle : min window ((List.replicate n c).length - 1) ≤ n - 1 := by
    rw [hlen]; exact Nat.min_le_right _ _
  have hw2 : 2 ≤ min window ((List.replicate n c).length - 1) := by
    rw [hlen]; exact Nat.le_min.mpr ⟨hw, by omega⟩
  have hslice : pySliceLast (min window ((List.replicate n c).length - 1))
      (rets (List.replicate n c)) =
      List.replicate (min window ((List.replicate n c).length - 1)) 0 := by
    rw [rets_replicate, pySliceLast, if_neg hw0, lastN, List.length_replicate,
      List.drop_replicate]
    congr 1
    omega
  simp only [calc_vol, hnot, if_false, hslice]
  have hlen2 : ¬ (List.replicate (min window ((List.replicate n c).length - 1))
      (0 : ℚ)).length < 2 := by
    rw [List.length_replicate]; omega
  rw [if_neg hlen2, stdev_replicate_zero]
  simp

/-- Witness for constant_series_vol_zero: the constant series [5, 5, 5, 5] at
the default window 30 yields volatility 0. -/
theorem constant_series_vol_zero_witness :
    0 < (5 : ℚ) ∧ 3 ≤ 4 ∧ 2 ≤ 30 ∧
      calc_vol (List.replicate 4 5) 30 = some 0 :=
  ⟨by norm_num, by norm_num, by norm_num,
    constant_series_vol_zero 5 4 30 (by norm_num) (by norm_num) (by norm_num)⟩

/-! ### Market data fetcher: fetch_history and fetch_history_range
(engine.py lines 70-107).  The network is an oracle mapping a request to
some body (HTTP 200) or none (any non-success status).  Timestamps are
integers (Unix seconds), a ranged series is a list of (timestamp, price)
pairs.  Each result carries the updated cache and the number of network
requests performed (0 or 1). -/

/-- Network oracle for the daily endpoint /coins/id/market_chart:
identifier and day count to an optional price list. -/
abbrev NetDaily := String → ℤ → Option (List ℚ)

/-- Network oracle for the ranged endpoint /coins/id/market_chart/range:
identifier, from, to (Unix seconds) to an optional (timestamp, price) list. -/
abbrev NetRange := String → ℤ → ℤ → Option (List (ℤ × ℚ))

/-- Cache of the daily endpoint, keyed like the f-string hist:cid:days. -/
abbrev HistCache := List ((String × ℤ) × List ℚ)

/-- Cache of the ranged endpoint, keyed like range:cid:start:end. -/
abbrev RangeCache := List ((String × ℤ × ℤ) × List (ℤ × ℚ))

/-- Lookup in an association-list cache (python dict get). -/
def cacheFind {K V : Type} [DecidableEq K] : List (K × V) → K → Option V
  | [], _ => none
  | (k, v) :: rest, key => if key = k then some v else cacheFind rest key

/-- Result of one call to fetch_history: value returned, cache afterwards,
and how many network requests were made. -/
structure HFResult where
  result : Option (List ℚ)
  cache : HistCache
  requests : ℕ
deriving DecidableEq

/-- Result of one call to fetch_history_range. -/
structure RFResult where
  result : Option (List (ℤ × ℚ))
  cache : RangeCache
  requests : ℕ
deriving DecidableEq

/-- Translation of fetch_history (engine.py lines 70-81): None identifier
returns None; a cache hit returns the cached list; otherwise one request is
made, a non-200 status returns None WITHOUT caching, and a 200 body has its
price list cached and returned (even when empty). -/
def fetch_history (net : NetDaily) (cid : Option String) (days : ℤ)
    (cache : HistCache) : HFResult :=
  match cid with
  | none => ⟨none, cache, 0⟩
  | some c =>
    match cacheFind cache (c, days) with
    | some v => ⟨some v, cache, 0⟩
    | none =>
      match net c days with
      | none => ⟨none, cache, 1⟩
      | some prices => ⟨some prices, ((c, days), prices) :: cache, 1⟩

/-- Translation of fetch_history_range (engine.py lines 83-107): empty
identifier or start_dt >= end_dt returns None; a cache hit (cache.get(key)
is not None) returns the cached list; otherwise one request is made, a
non-200 status returns None without caching, and a 200 body has its price
list cached as-is, while the RETURNED value is (prices or None) - an empty
list is cached but None is returned. -/
def fetch_history_range (net : NetRange) (cid : String) (start_dt end_dt : ℤ)
    (cache : RangeCache) : RFResult :=
  if cid = "" ∨ start_dt ≥ end_dt then ⟨none, cache, 0⟩
  else
    match cacheFind cache (cid, start_dt, end_dt) with
    | some v => ⟨some v, cache, 0⟩
    | none =>
      match net cid start_dt end_dt with
      | none => ⟨none, cache, 1⟩
      | some prices =>
        ⟨if prices = [] then none else some prices,
         ((cid, start_dt, end_dt), prices) :: cache, 1⟩

/-- Translation of _pick_price_from_series (engine.py lines 109-118). -/
def pick_price_from_series (series : List (ℤ × ℚ)) (pick : String) : Option ℚ :=
  if series = [] then none
  else if pick = "first" then series.head?.map Prod.snd
  else series.getLast?.map Prod.snd

/-! ### Backtest engine: backtest_portfolio (engine.py lines 179-267) -/

/-- One sleeve of the model portfolio (config.py MODEL_PORTFOLIO entry):
token symbol, optional price-feed identifier, allocation percentage and
stablecoin flag.  The defillama field is unused by the engine. -/
structure Asset where
  token : String
  coingecko : Option String
  alloc_pct : ℚ
  stable : Bool
deriving DecidableEq

/-- One row of the backtest table (engine.py lines 240-250).  A none field
models the NaN / None that pandas renders as "not available". -/
structure BRow where
  token : String
  alloc_pct : ℚ
  start_price : Option ℚ
  end_price : Option ℚ
  units : Option ℚ
  start_val : Option ℚ
  end_val : Option ℚ
  pnl_usd : Option ℚ
  pnl_pct : Option ℚ
deriving DecidableEq

/-- Python truthiness of the optional identifier in the guard if cid:
None and the empty string are falsy. -/
def cidTruthy : Option String → Bool
  | none => false
  | some s => if s = "" then false else true

/-- Price resolution for a single asset, first loop of backtest_portfolio
(engine.py lines 203-216): with a truthy identifier, fetch the ranged series
and take first/last sample prices when the series is truthy (nonempty);
otherwise both prices are None.  Without an identifier, both prices are the
flat fallback when the asset is flagged stable, else None.  (The source keys
the price dicts by token; this per-asset form is exact when tokens are
distinct, as they are in the model portfolio.) -/
def resolveAsset (net : NetRange) (start_dt end_dt : ℤ)
    (stable_price_fallback : ℚ) (a : Asset) (cache : RangeCache) :
    (Option ℚ × Option ℚ) × RangeCache :=
  if cidTruthy a.coingecko then
    let r := fetch_history_range net (a.coingecko.getD "") start_dt end_dt cache
    match r.result with
    | some (p :: ps) =>
      ((pick_price_from_series (p :: ps) "first",
        pick_price_from_series (p :: ps) "last"), r.cache)
    | _ => ((none, none), r.cache)
  else
    ((if a.stable then some stable_price_fallback else none,
      if a.stable then some stable_price_fallback else none), cache)

/-- Stable fallback applied inside the row loop (engine.py lines 228-231):
if sp is None and is_stable: sp = stable_price_fallback (same for ep). -/
def appliedPrice (stable : Bool) (fallback : ℚ) (p : Option ℚ) : Option ℚ :=
  match p with
  | none => if stable then some fallback else none
  | some x => some x

/-- Product of two optional numbers, as in units * sp under the guard that
units is not NaN (engine.py lines 235-236); when the left operand is present
the right one is too at every call site. -/
def optMul (a b : Option ℚ) : Option ℚ :=
  a.bind fun x => b.map fun y => x * y

/-- Difference end_val - start_val guarded by the NaN checks
end_val == end_val and start_val == start_val (engine.py line 237). -/
def optSub (a b : Option ℚ) : Option ℚ :=
  match a, b with
  | some x, some y => some (x - y)
  | _, _ => none

/-- Percentage pnl_usd / start_val * 100 under the guard
pnl_usd == pnl_usd and start_val and start_val > 0 (engine.py line 238):
a falsy (zero) or non-positive start value yields NaN. -/
def optPct (p sv : Option ℚ) : Option ℚ :=
  match p, sv with
  | some x, some s => if 0 < s then some (x / s * 100) else none
  | _, _ => none

/-- Row construction of backtest_portfolio (engine.py lines 220-250) for one
asset, from the resolved (pre-fallback) start and end prices.
units = target_usd / sp under the guard sp and sp > 0 (a None or zero or
negative start price gives NaN). -/
def mkRow (starting_nav stable_price_fallback : ℚ) (a : Asset)
    (sp0 ep0 : Option ℚ) : BRow :=
  let sp := appliedPrice a.stable stable_price_fallback sp0
  let ep := appliedPrice a.stable stable_price_fallback ep0
  let target_usd := starting_nav * (a.alloc_pct / 100)
  let units : Option ℚ :=
    match sp with
    | some s => if 0 < s then some (target_usd / s) else none
    | none => none
  let start_val := optMul units sp
  let end_val := optMul units ep
  let pnl_usd := optSub end_val start_val
  let pnl_pct := optPct pnl_usd start_val
  { token := a.token, alloc_pct := a.alloc_pct, start_price := sp,
    end_price := ep, units := units, start_val := start_val,
    end_val := end_val, pnl_usd := pnl_usd, pnl_pct := pnl_pct }

/-- Full processing of one asset: resolve prices, then build the row.
Combines the two loops of backtest_portfolio for a single asset; the row
loop does not touch the cache, so per-asset fusion preserves the result. -/
def backtestRecord (net : NetRange) (start_dt end_dt : ℤ)
    (starting_nav stable_price_fallback : ℚ) (a : Asset)
    (cache : RangeCache) : BRow × RangeCache :=
  let pr := resolveAsset net start_dt end_dt stable_price_fallback a cache
  (mkRow starting_nav stable_price_fallback a pr.1.1 pr.1.2, pr.2)

/-- Per-asset rows of the backtest, threading the memoization cache through
the assets in order. -/
def backtestRows (net : NetRange) (start_dt end_dt : ℤ)
    (starting_nav stable_price_fallback : ℚ) :
    List Asset → RangeCache → List BRow × RangeCache
  | [], cache => ([], cache)
  | a :: rest, cache =>
    let rc := backtestRecord net start_dt end_dt starting_nav
      stable_price_fallback a cache
    let tail := backtestRows net start_dt end_dt starting_nav
      stable_price_fallback rest rc.2
    (rc.1 :: tail.1, tail.2)

/-- Pandas Series.sum(skipna=True): absent entries contribute 0. -/
def sumOpt (xs : List (Option ℚ)) : ℚ := (xs.map (fun x => x.getD 0)).sum

/-- Epsilon guard 1e-9 of the totals row (engine.py line 264). -/
def eps : ℚ := 1 / 1000000000

/-- Totals row of backtest_portfolio (engine.py lines 255-265): sums with
skipna=True over the per-asset rows, NaN for the price and unit columns, and
PnL_% = (sum_end / max(sum_start, 1e-9) - 1) * 100. -/
def totalsRow (rows : List BRow) : BRow :=
  { token := "TOTAL",
    alloc_pct := (rows.map (fun r => r.alloc_pct)).sum,
    start_price := none, end_price := none, units := none,
    start_val := some (sumOpt (rows.map (fun r => r.start_val))),
    end_val := some (sumOpt (rows.map (fun r => r.end_val))),
    pnl_usd := some (sumOpt (rows.map (fun r => r.pnl_usd))),
    pnl_pct := some ((sumOpt (rows.map (fun r => r.end_val)) /
      max (sumOpt (rows.map (fun r => r.start_val))) eps - 1) * 100) }

/-- Translation of backtest_portfolio (engine.py lines 179-267): the
per-asset rows followed by the synthetic TOTAL row. -/
def backtest_portfolio (net : NetRange) (start_dt end_dt : ℤ)
    (starting_nav stable_price_fallback : ℚ) (assets : List Asset) :
    List BRow :=
  let rows := (backtestRows net start_dt end_dt starting_nav
    stable_price_fallback assets []).1
  rows ++ [totalsRow rows]

/-! ### Helper lemmas: fields of a backtest row -/

theorem backtestRecord_row (net : NetRange) (start_dt end_dt : ℤ) (nav fb : ℚ)
    (a : Asset) (cache : RangeCache) :
    (backtestRecord net start_dt end_dt nav fb a cache).1 =
      mkRow nav fb a (resolveAsset net start_dt end_dt fb a cache).1.1
        (resolveAsset net start_dt end_dt fb a cache).1.2 := rfl

theorem mkRow_start_price (nav fb : ℚ) (a : Asset) (sp0 ep0 : Option ℚ) :
    (mkRow nav fb a sp0 ep0).start_price = appliedPrice a.stable fb sp0 := rfl

theorem mkRow_end_price (nav fb : ℚ) (a : Asset) (sp0 ep0 : Option ℚ) :
    (mkRow nav fb a sp0 ep0).end_price = appliedPrice a.stable fb ep0 := rfl

theorem mkRow_units (nav fb : ℚ) (a : Asset) (sp0 ep0 : Option ℚ) :
    (mkRow nav fb a sp0 ep0).units =
      match appliedPrice a.stable fb sp0 with
      | some s => if 0 < s then some (nav * (a.alloc_pct / 100) / s) else none
      | none => none := rfl

theorem mkRow_start_val (nav fb : ℚ) (a : Asset) (sp0 ep0 : Option ℚ) :
    (mkRow nav fb a sp0 ep0).start_val =
      optMul (mkRow nav fb a sp0 ep0).units (appliedPrice a.stable fb sp0) := rfl

theorem mkRow_end_val (nav fb : ℚ) (a : Asset) (sp0 ep0 : Option ℚ) :
    (mkRow nav fb a sp0 ep0).end_val =
      optMul (mkRow nav fb a sp0 ep0).units (appliedPrice a.stable fb ep0) := rfl

theorem mkRow_pnl_usd (nav fb : ℚ) (a : Asset) (sp0 ep0 : Option ℚ) :
    (mkRow nav fb a sp0 ep0).pnl_usd =
      optSub (mkRow nav fb a sp0 ep0).end_val (mkRow nav fb a sp0 ep0).start_val := rfl

theorem mkRow_pnl_pct (nav fb : ℚ) (a : Asset) (sp0 ep0 : Option ℚ) :
    (mkRow nav fb a sp0 ep0).pnl_pct =
      optPct (mkRow nav fb a sp0 ep0).pnl_usd (mkRow nav fb a sp0 ep0).start_val := rfl

/-! ### Claims about the backtest rows -/

/-- Claim C2 counterexample: a row whose start value is exactly zero (stable
sleeve, allocation 0 percent, resolvable flat price 1) still gets an available
PnL dollar figure of 0, while the claim demands "not available" for pnl_usd
whenever start_value is zero or negative.  Only PnL percent is absent there. -/
theorem pnl_usd_available_at_zero_start_value :
    ((backtestRecord (fun _ _ _ => none) 0 1 100000 1
        ⟨"USDC", none, 0, true⟩ []).1).start_val = some 0 ∧
    ((backtestRecord (fun _ _ _ => none) 0 1 100000 1
        ⟨"USDC", none, 0, true⟩ []).1).pnl_usd = some 0 ∧
    ((backtestRecord (fun _ _ _ => none) 0 1 100000 1
        ⟨"USDC", none, 0, true⟩ []).1).pnl_pct = none := by
  refine ⟨?_, ?_, ?_⟩ <;>
    norm_num [backtestRecord, resolveAsset, mkRow, appliedPrice, cidTruthy,
      optMul, optSub, optPct]

/-- Claim C2, amended: in every backtest row, pnl_usd = end_value - start_value
and is "not available" exactly when end_value or start_value is; pnl_pct =
pnl_usd / start_value * 100 and is "not available" whenever pnl_usd is not
available or start_value is zero or negative.  A zero or negative start value
does not by itself make pnl_usd absent. -/
theorem pnl_fields_propagation (net : NetRange) (start_dt end_dt : ℤ)
    (nav fb : ℚ) (a : Asset) (cache : RangeCache) :
    (∀ ev sv : ℚ,
      ((backtestRecord net start_dt end_dt nav fb a cache).1).end_val = some ev →
      ((backtestRecord net start_dt end_dt nav fb a cache).1).start_val = some sv →
      ((backtestRecord net start_dt end_dt nav fb a cache).1).pnl_usd =
        some (ev - sv)) ∧
    (((backtestRecord net start_dt end_dt nav fb a cache).1).end_val = none ∨
      ((backtestRecord net start_dt end_dt nav fb a cache).1).start_val = none →
      ((backtestRecord net start_dt end_dt nav fb a cache).1).pnl_usd = none) ∧
    (∀ p sv : ℚ,
      ((backtestRecord net start_dt end_dt nav fb a cache).1).pnl_usd = some p →
      ((backtestRecord net start_dt end_dt nav fb a cache).1).start_val = some sv →
      0 < sv →
      ((backtestRecord net start_dt end_dt nav fb a cache).1).pnl_pct =
        some (p / sv * 100)) ∧
    (∀ sv : ℚ,
      ((backtestRecord net start_dt end_dt nav fb a cache).1).start_val = some sv →
      sv ≤ 0 →
      ((backtestRecord net start_dt end_dt nav fb a cache).1).pnl_pct = none) ∧
    (((backtestRecord net start_dt end_dt nav fb a cache).1).pnl_usd = none →
      ((backtestRecord net start_dt end_dt nav fb a cache).1).pnl_pct = none) := by
  have hr := backtestRecord_row net start_dt end_dt nav fb a cache
  rw [hr]
  refine ⟨?_, ?_, ?_, ?_, ?_⟩
  · intro ev sv hev hsv
    rw [mkRow_pnl_usd, hev, hsv]
    rfl
  · intro h
    rcases h with h | h
    · rw [mkRow_pnl_usd, h]
      rfl
    · rw [mkRow_pnl_usd, h]
      cases hx : (mkRow nav fb a (resolveAsset net start_dt end_dt fb a cache).1.1
          (resolveAsset net start_dt end_dt fb a cache).1.2).end_val <;> rfl
  · intro p sv hp hsv hpos
    rw [mkRow_pnl_pct, hp, hsv]
    simp [optPct, hpos]
  · intro sv hsv hle
    rw [mkRow_pnl_pct, hsv]
    cases hp : (mkRow nav fb a (resolveAsset net start_dt end_dt fb a cache).1.1
        (resolveAsset net start_dt end_dt fb a cache).1.2).pnl_usd <;>
      simp [optPct, not_lt.mpr hle]
  · intro h
    rw [mkRow_pnl_pct, h]
    rfl

/-- Witness for pnl_fields_propagation: a stable sleeve with a 50 percent
allocation and flat price 1 has end value 50000, start value 50000 and an
available PnL of 50000 - 50000. -/
theorem pnl_fields_propagation_witness :
    ((backtestRecord (fun _ _ _ => none) 0 1 100000 1
        ⟨"USDC", none, 50, true⟩ []).1).pnl_usd = some (50000 - 50000) :=
  (pnl_fields_propagation (fun _ _ _ => none) 0 1 100000 1
      ⟨"USDC", none, 50, true⟩ []).1 50000 50000
    (by norm_num [backtestRecord, resolveAsset, mkRow, appliedPrice, cidTruthy,
      optMul])
    (by norm_num [backtestRecord, resolveAsset, mkRow, appliedPrice, cidTruthy,
      optMul])

/-- Claim C5: an asset whose identifier is absent (or falsy), or whose ranged
fetch returns absent - which a start_dt >= end_dt range forces - uses the flat
fallback for start and end prices only when flagged stable; a non-stable asset
with no resolvable price has every derived field "not available", and the
computation is total (no error raised). -/
theorem unresolvable_price_fallback_rule (net : NetRange) (start_dt end_dt : ℤ)
    (nav fb : ℚ) (a : Asset) (cache : RangeCache) :
    ((cidTruthy a.coingecko = false ∨
      (∀ cid : String, a.coingecko = some cid →
        (fetch_history_range net cid start_dt end_dt cache).result = none)) →
      ((a.stable = true →
        ((backtestRecord net start_dt end_dt nav fb a cache).1).start_price =
          some fb ∧
        ((backtestRecord net start_dt end_dt nav fb a cache).1).end_price =
          some fb) ∧
       (a.stable = false →
        ((backtestRecord net start_dt end_dt nav fb a cache).1).start_price = none ∧
        ((backtestRecord net start_dt end_dt nav fb a cache).1).end_price = none ∧
        ((backtestRecord net start_dt end_dt nav fb a cache).1).units = none ∧
        ((backtestRecord net start_dt end_dt nav fb a cache).1).start_val = none ∧
        ((backtestRecord net start_dt end_dt nav fb a cache).1).end_val = none ∧
        ((backtestRecord net start_dt end_dt nav fb a cache).1).pnl_usd = none ∧
        ((backtestRecord net start_dt end_dt nav fb a cache).1).pnl_pct = none))) ∧
    (end_dt ≤ start_dt → ∀ cid : String,
      (fetch_history_range net cid start_dt end_dt cache).result = none) := by
  have hr := backtestRecord_row net start_dt end_dt nav fb a cache
  constructor
  · intro h
    have hkey : appliedPrice a.stable fb
          (resolveAsset net start_dt end_dt fb a cache).1.1 =
        (if a.stable then some fb else none) ∧
        appliedPrice a.stable fb
          (resolveAsset net start_dt end_dt fb a cache).1.2 =
        (if a.stable then some fb else none) := by
      by_cases hct : cidTruthy a.coingecko = true
      · rcases h with h | h
        · rw [h] at hct; cases hct
        · obtain ⟨c, hcg⟩ : ∃ c, a.coingecko = some c := by
            cases hcg : a.coingecko with
            | none => rw [hcg] at hct; simp [cidTruthy] at hct
            | some c => exact ⟨c, rfl⟩
          have hres := h c hcg
          have hct2 : cidTruthy (some c) = true := by rw [← hcg]; exact hct
          have hresolve : (resolveAsset net start_dt end_dt fb a cache).1 =
              (none, none) := by
            simp only [resolveAsset, hcg, Option.getD_some, hct2, if_true, hres]
          rw [hresolve]
          cases a.stable <;> simp [appliedPrice]
      · have hctf : cidTruthy a.coingecko = false := by
          simpa using hct
        have hresolve : (resolveAsset net start_dt end_dt fb a cache).1 =
            ((if a.stable then some fb else none),
             (if a.stable then some fb else none)) := by
          simp only [resolveAsset, hctf, Bool.false_eq_true, if_false]
        rw [hresolve]
        cases a.stable <;> simp [appliedPrice]
    rcases hkey with ⟨hk1, hk2⟩
    constructor
    · intro hst
      rw [hst] at hk1 hk2
      simp only [if_true] at hk1 hk2
      constructor
      · rw [hr, mkRow_start_price, hst]
        exact hk1
      · rw [hr, mkRow_end_price, hst]
        exact hk2
    · intro hst
      rw [hst] at hk1 hk2
      simp only [Bool.false_eq_true, if_false] at hk1 hk2
      rw [hr]
      have hu : (mkRow nav fb a
          (resolveAsset net start_dt end_dt fb a cache).1.1
          (resolveAsset net start_dt end_dt fb a cache).1.2).units = none := by
        rw [mkRow_units, hst, hk1]
      have hsv : (mkRow nav fb a
          (resolveAsset net start_dt end_dt fb a cache).1.1
          (resolveAsset net start_dt end_dt fb a cache).1.2).start_val = none := by
        rw [mkRow_start_val, hu]; rfl
      have hev : (mkRow nav fb a
          (resolveAsset net start_dt end_dt fb a cache).1.1
          (resolveAsset net start_dt end_dt fb a cache).1.2).end_val = none := by
        rw [mkRow_end_val, hu]; rfl
      have hpnl : (mkRow nav fb a
          (resolveAsset net start_dt end_dt fb a cache).1.1
          (resolveAsset net start_dt end_dt fb a cache).1.2).pnl_usd = none := by
        rw [mkRow_pnl_usd, hev, hsv]
        rfl
      have hpp : (mkRow nav fb a
          (resolveAsset net start_dt end_dt fb a cache).1.1
          (resolveAsset net start_dt end_dt fb a cache).1.2).pnl_pct = none := by
        rw [mkRow_pnl_pct, hpnl]
        rfl
      refine ⟨?_, ?_, hu, hsv, hev, hpnl, hpp⟩
      · rw [mkRow_start_price, hst]
        exact hk1
      · rw [mkRow_end_price, hst]
        exact hk2
  · intro hle cid
    rw [fetch_history_range, if_pos (Or.inr hle)]

/-- Witness for unresolvable_price_fallback_rule: a non-stable asset with no
identifier over an inverted range has every derived field absent, and the
inverted-range fetch itself is absent. -/
theorem unresolvable_price_fallback_rule_witness :
    (((backtestRecord (fun _ _ _ => some [(0, 7)]) 1 0 100000 1
        ⟨"XYZ", none, 10, false⟩ []).1).start_price = none ∧
      ((backtestRecord (fun _ _ _ => some [(0, 7)]) 1 0 100000 1
        ⟨"XYZ", none, 10, false⟩ []).1).end_price = none ∧
      ((backtestRecord (fun _ _ _ => some [(0, 7)]) 1 0 100000 1
        ⟨"XYZ", none, 10, false⟩ []).1).units = none ∧
      ((backtestRecord (fun _ _ _ => some [(0, 7)]) 1 0 100000 1
        ⟨"XYZ", none, 10, false⟩ []).1).start_val = none ∧
      ((backtestRecord (fun _ _ _ => some [(0, 7)]) 1 0 100000 1
        ⟨"XYZ", none, 10, false⟩ []).1).end_val = none ∧
      ((backtestRecord (fun _ _ _ => some [(0, 7)]) 1 0 100000 1
        ⟨"XYZ", none, 10, false⟩ []).1).pnl_usd = none ∧
      ((backtestRecord (fun _ _ _ => some [(0, 7)]) 1 0 100000 1
        ⟨"XYZ", none, 10, false⟩ []).1).pnl_pct = none) ∧
    (fetch_history_range (fun _ _ _ => some [(0, 7)]) "xyz" 1 0 []).result =
      none := by
  have h := unresolvable_price_fallback_rule (fun _ _ _ => some [(0, 7)]) 1 0
    100000 1 ⟨"XYZ", none, 10, false⟩ []
  exact ⟨(h.1 (Or.inl rfl)).2 rfl, h.2 (by norm_num) "xyz"⟩

/-- Shared helper: fields of a row once both prices resolve and the start
price is positive. -/
theorem mkRow_resolved (nav fb : ℚ) (a : Asset) (sp0 ep0 : Option ℚ)
    (sp ep : ℚ) (hsp : appliedPrice a.stable fb sp0 = some sp) (hpos : 0 < sp)
    (hep : appliedPrice a.stable fb ep0 = some ep) :
    (mkRow nav fb a sp0 ep0).units = some (nav * (a.alloc_pct / 100) / sp) ∧
    (mkRow nav fb a sp0 ep0).start_val =
      some (nav * (a.alloc_pct / 100) / sp * sp) ∧
    (mkRow nav fb a sp0 ep0).end_val =
      some (nav * (a.alloc_pct / 100) / sp * ep) := by
  simp [mkRow, hsp, hep, hpos, optMul]

/-- Claim C8: for an asset whose resolved start price is a positive number and
whose end price resolves, units = starting_nav * alloc_pct / 100 / start_price
(fixed in the single purchase pass, never rebalanced), start value =
units * start_price, and end value = units * end_price, exactly. -/
theorem buy_and_hold_units_values (net : NetRange) (start_dt end_dt : ℤ)
    (nav fb : ℚ) (a : Asset) (cache : RangeCache) (sp ep : ℚ)
    (hsp : ((backtestRecord net start_dt end_dt nav fb a cache).1).start_price =
      some sp)
    (hpos : 0 < sp)
    (hep : ((backtestRecord net start_dt end_dt nav fb a cache).1).end_price =
      some ep) :
    ((backtestRecord net start_dt end_dt nav fb a cache).1).units =
      some (nav * (a.alloc_pct / 100) / sp) ∧
    ((backtestRecord net start_dt end_dt nav fb a cache).1).start_val =
      some (nav * (a.alloc_pct / 100) / sp * sp) ∧
    ((backtestRecord net start_dt end_dt nav fb a cache).1).end_val =
      some (nav * (a.alloc_pct / 100) / sp * ep) := by
  have hr := backtestRecord_row net start_dt end_dt nav fb a cache
  rw [hr] at hsp hep ⊢
  rw [mkRow_start_price] at hsp
  rw [mkRow_end_price] at hep
  exact mkRow_resolved nav fb a _ _ sp ep hsp hpos hep

/-- Witness for buy_and_hold_units_values: the spec scenario sleeve - 50
percent allocation of a 100000 NAV bought at 100 and ending at 110 - yields
its units, start value and end value from the buy-and-hold formulas. -/
theorem buy_and_hold_units_values_witness :
    ((backtestRecord (fun _ _ _ => some [(0, 100), (1, 110)]) 0 1 100000 1
        ⟨"BTC", some "bitcoin", 50, false⟩ []).1).units =
      some (100000 * ((⟨"BTC", some "bitcoin", 50, false⟩ : Asset).alloc_pct /
        100) / 100) ∧
    ((backtestRecord (fun _ _ _ => some [(0, 100), (1, 110)]) 0 1 100000 1
        ⟨"BTC", some "bitcoin", 50, false⟩ []).1).start_val =
      some (100000 * ((⟨"BTC", some "bitcoin", 50, false⟩ : Asset).alloc_pct /
        100) / 100 * 100) ∧
    ((backtestRecord (fun _ _ _ => some [(0, 100), (1, 110)]) 0 1 100000 1
        ⟨"BTC", some "bitcoin", 50, false⟩ []).1).end_val =
      some (100000 * ((⟨"BTC", some "bitcoin", 50, false⟩ : Asset).alloc_pct /
        100) / 100 * 110) :=
  buy_and_hold_units_values (fun _ _ _ => some [(0, 100), (1, 110)]) 0 1
    100000 1 ⟨"BTC", some "bitcoin", 50, false⟩ [] 100 110
    rfl (by norm_num) rfl

/-- Claim C10 counterexample: a stable sleeve with no identifier, positive
fallback price 1 and positive allocation 50 under a run with starting_nav = 0
has PnL percent "not available" (zero start value), not exactly 0 as the claim
demands. -/
theorem stable_no_cid_zero_nav_pnl_pct :
    ((backtestRecord (fun _ _ _ => none) 0 1 0 1
        ⟨"USDY", none, 50, true⟩ []).1).pnl_pct = none ∧
    0 < (50 : ℚ) ∧ 0 < (1 : ℚ) := by
  refine ⟨?_, by norm_num, by norm_num⟩
  norm_num [backtestRecord, resolveAsset, mkRow, appliedPrice, cidTruthy,
    optMul, optSub, optPct]

/-- Claim C10, amended: a stable asset without a price-feed identifier gets
the fallback price for both start and end, hence PnL dollars exactly 0 (for a
positive fallback), and PnL percent exactly 0 whenever both the allocation
percentage and the starting NAV are positive. -/
theorem stable_no_cid_flat_pnl (net : NetRange) (start_dt end_dt : ℤ)
    (nav fb : ℚ) (a : Asset) (cache : RangeCache)
    (hcid : a.coingecko = none) (hst : a.stable = true) (hfb : 0 < fb) :
    ((backtestRecord net start_dt end_dt nav fb a cache).1).start_price =
      some fb ∧
    ((backtestRecord net start_dt end_dt nav fb a cache).1).end_price =
      some fb ∧
    ((backtestRecord net start_dt end_dt nav fb a cache).1).pnl_usd = some 0 ∧
    (0 < a.alloc_pct → 0 < nav →
      ((backtestRecord net start_dt end_dt nav fb a cache).1).pnl_pct =
        some 0) := by
  have hr := backtestRecord_row net start_dt end_dt nav fb a cache
  rw [hr]
  have hct : cidTruthy a.coingecko = false := by rw [hcid]; rfl
  have hresolve : (resolveAsset net start_dt end_dt fb a cache).1 =
      (some fb, some fb) := by
    simp [resolveAsset, hct, hst]
  have hsp : appliedPrice a.stable fb
      (resolveAsset net start_dt end_dt fb a cache).1.1 = some fb := by
    rw [hresolve]; rfl
  have hep : appliedPrice a.stable fb
      (resolveAsset net start_dt end_dt fb a cache).1.2 = some fb := by
    rw [hresolve]; rfl
  obtain ⟨hunits, hsv, hev⟩ := mkRow_resolved nav fb a
    (resolveAsset net start_dt end_dt fb a cache).1.1
    (resolveAsset net start_dt end_dt fb a cache).1.2 fb fb hsp hfb hep
  have hpnl : (mkRow nav fb a
      (resolveAsset net start_dt end_dt fb a cache).1.1
      (resolveAsset net start_dt end_dt fb a cache).1.2).pnl_usd = some 0 := by
    rw [mkRow_pnl_usd, hev, hsv]
    simp [optSub]
  refine ⟨by rw [mkRow_start_price, hsp], by rw [mkRow_end_price, hep],
    hpnl, ?_⟩
  intro ha hnav
  have hsvpos : 0 < nav * (a.alloc_pct / 100) / fb * fb := by positivity
  rw [mkRow_pnl_pct, hpnl, hsv]
  simp [optPct, hsvpos]

/-- Witness for stable_no_cid_flat_pnl: the USDY sleeve (stable, no feed,
20 percent of 100000 at fallback 1) has flat prices and zero PnL. -/
theorem stable_no_cid_flat_pnl_witness :
    ((backtestRecord (fun _ _ _ => none) 0 1 100000 1
        ⟨"USDY", none, 20, true⟩ []).1).start_price = some 1 ∧
    ((backtestRecord (fun _ _ _ => none) 0 1 100000 1
        ⟨"USDY", none, 20, true⟩ []).1).end_price = some 1 ∧
    ((backtestRecord (fun _ _ _ => none) 0 1 100000 1
        ⟨"USDY", none, 20, true⟩ []).1).pnl_usd = some 0 ∧
    (0 < (⟨"USDY", none, 20, true⟩ : Asset).alloc_pct → 0 < (100000 : ℚ) →
      ((backtestRecord (fun _ _ _ => none) 0 1 100000 1
        ⟨"USDY", none, 20, true⟩ []).1).pnl_pct = some 0) :=
  stable_no_cid_flat_pnl (fun _ _ _ => none) 0 1 100000 1
    ⟨"USDY", none, 20, true⟩ [] rfl rfl (by norm_num)

/-- Claim C6: the synthetic TOTAL row of the backtest output is its last row;
its Alloc, Start_Value, End_Value and PnL dollar figures are the sums of the
per-asset values (absent entries contributing 0), and its PnL percent is
(sum of end values / max(sum of start values, 1e-9) - 1) * 100. -/
theorem totals_row_sums (net : NetRange) (start_dt end_dt : ℤ) (nav fb : ℚ)
    (assets : List Asset) :
    ∃ t : BRow,
      (backtest_portfolio net start_dt end_dt nav fb assets).getLast? = some t ∧
      t.alloc_pct =
        (((backtest_portfolio net start_dt end_dt nav fb assets).dropLast).map
          (fun r => r.alloc_pct)).sum ∧
      t.start_val = some (sumOpt
        (((backtest_portfolio net start_dt end_dt nav fb assets).dropLast).map
          (fun r => r.start_val))) ∧
      t.end_val = some (sumOpt
        (((backtest_portfolio net start_dt end_dt nav fb assets).dropLast).map
          (fun r => r.end_val))) ∧
      t.pnl_usd = some (sumOpt
        (((backtest_portfolio net start_dt end_dt nav fb assets).dropLast).map
          (fun r => r.pnl_usd))) ∧
      t.pnl_pct = some ((sumOpt
          (((backtest_portfolio net start_dt end_dt nav fb assets).dropLast).map
            (fun r => r.end_val)) /
        max (sumOpt
          (((backtest_portfolio net start_dt end_dt nav fb assets).dropLast).map
            (fun r => r.start_val))) (1 / 1000000000) - 1) * 100) := by
  have hout : backtest_portfolio net start_dt end_dt nav fb assets =
      (backtestRows net start_dt end_dt nav fb assets []).1 ++
        [totalsRow (backtestRows net start_dt end_dt nav fb assets []).1] := rfl
  have hdrop : (backtest_portfolio net start_dt end_dt nav fb assets).dropLast =
      (backtestRows net start_dt end_dt nav fb assets []).1 := by
    rw [hout, List.dropLast_concat]
  have hlast : (backtest_portfolio net start_dt end_dt nav fb assets).getLast? =
      some (totalsRow (backtestRows net start_dt end_dt nav fb assets []).1) := by
    rw [hout, List.getLast?_concat]
  refine ⟨totalsRow (backtestRows net start_dt end_dt nav fb assets []).1,
    hlast, ?_, ?_, ?_, ?_, ?_⟩ <;>
    rw [hdrop] <;> simp [totalsRow, eps]

/-- Claim C7 counterexample: two violations of the memoization claim.  First,
when the ranged endpoint answers 200 with an EMPTY price list, the first call
returns absent (prices or None) but caches the empty list, so a repeated call
returns the cached empty list - a different value from the first call.
Second, when the first call fails (non-200), nothing is cached and the
repeated call issues a second network request. -/
theorem range_fetch_empty_cache_divergence :
    (fetch_history_range (fun _ _ _ => some []) "a" 0 1 []).result = none ∧
    (fetch_history_range (fun _ _ _ => some []) "a" 0 1
      (fetch_history_range (fun _ _ _ => some []) "a" 0 1 []).cache).result =
      some [] ∧
    (fetch_history_range (fun _ _ _ => none) "a" 0 1
      (fetch_history_range (fun _ _ _ => none) "a" 0 1 []).cache).requests =
      1 := by
  refine ⟨rfl, rfl, rfl⟩

/-- Claim C7, amended: within one run, a repeated call to fetch_history with
the same (identifier, days) key, or to fetch_history_range with the same
(identifier, start, end) key, issues no new network request and returns the
value of the first call - provided the first fetch succeeded (HTTP 200), and,
for the ranged endpoint, returned a nonempty price list (a successful empty
ranged fetch caches the empty list yet returns absent, so the repeat returns
the cached empty list; a failed fetch caches nothing and the repeat
re-requests). -/
theorem fetch_memoization (netD : NetDaily) (netR : NetRange) (cid : String)
    (days start_dt end_dt : ℤ) (cacheD : HistCache) (cacheR : RangeCache)
    (psD : List ℚ) (psR : List (ℤ × ℚ))
    (hD : netD cid days = some psD)
    (hR : netR cid start_dt end_dt = some psR) (hne : psR ≠ []) :
    ((fetch_history netD (some cid) days
        (fetch_history netD (some cid) days cacheD).cache).result =
      (fetch_history netD (some cid) days cacheD).result ∧
     (fetch_history netD (some cid) days
        (fetch_history netD (some cid) days cacheD).cache).requests = 0) ∧
    ((fetch_history_range netR cid start_dt end_dt
        (fetch_history_range netR cid start_dt end_dt cacheR).cache).result =
      (fetch_history_range netR cid start_dt end_dt cacheR).result ∧
     (fetch_history_range netR cid start_dt end_dt
        (fetch_history_range netR cid start_dt end_dt cacheR).cache).requests =
      0) := by
  constructor
  · cases hfind : cacheFind cacheD (cid, days) with
    | some v => simp [fetch_history, hfind]
    | none => simp [fetch_history, hfind, hD, cacheFind]
  · by_cases hg : cid = "" ∨ start_dt ≥ end_dt
    · simp [fetch_history_range, hg]
    · cases hfind : cacheFind cacheR (cid, start_dt, end_dt) with
      | some v => simp [fetch_history_range, hg, hfind]
      | none => simp [fetch_history_range, hg, hfind, hR, hne, cacheFind]

/-- Witness for fetch_memoization: concrete oracles answering 200 with
nonempty bodies; the repeated daily and ranged calls return the first
results with zero further network requests. -/
theorem fetch_memoization_witness :
    ((fetch_history (fun _ _ => some [1, 2]) (some "a") 90
        (fetch_history (fun _ _ => some [1, 2]) (some "a") 90 []).cache).result =
      (fetch_history (fun _ _ => some [1, 2]) (some "a") 90 []).result ∧
     (fetch_history (fun _ _ => some [1, 2]) (some "a") 90
        (fetch_history (fun _ _ => some [1, 2]) (some "a") 90 []).cache).requests =
      0) ∧
    ((fetch_history_range (fun _ _ _ => some [(0, 3)]) "a" 0 1
        (fetch_history_range (fun _ _ _ => some [(0, 3)]) "a" 0 1 []).cache).result =
      (fetch_history_range (fun _ _ _ => some [(0, 3)]) "a" 0 1 []).result ∧
     (fetch_history_range (fun _ _ _ => some [(0, 3)]) "a" 0 1
        (fetch_history_range (fun _ _ _ => some [(0, 3)]) "a" 0 1 []).cache).requests =
      0) :=
  fetch_memoization (fun _ _ => some [1, 2]) (fun _ _ _ => some [(0, 3)])
    "a" 90 0 1 [] [] [1, 2] [(0, 3)] rfl rfl (by simp)

end RiskModel
